import Mathlib

/-!
Verification of the exchain cross-VM bridge core against its natural-language
specification.  The definitions below are a shallow embedding of
src/x/vmbridge/keeper/evm.go, src/x/wasm/module_adapter.go and the governance
proposal-status code (src/unnamed/part_000).  Collaborators that live outside
the given sources (sdk, go-ethereum ABI, the wasm keeper, the state-transition
engine) appear as parameters of the embedded functions or as definitions
modelled from the spec, each marked as such.
-/

namespace Exchain

/-- Error values the bridge code can return.  Source errors map as follows:
the sdkerrors.ErrUnknownRequest wrap at evm.go:33-34 is heightNotSupported,
types.ErrVMBridgeEnable at evm.go:39 is vmbridgeDisabled,
types.ErrIsNotETHAddr at evm.go:61/65 is isNotETHAddr,
types.ErrChainConfigNotFound at evm.go:96 is chainConfigNotFound; errors
produced by external collaborators are carried by the generic constructor. -/
inductive Err where
  | heightNotSupported
  | vmbridgeDisabled
  | isNotETHAddr
  | chainConfigNotFound
  | generic (msg : String)
  deriving DecidableEq

/-- NotSupportedError in the taxonomy of spec §7: height below activation or
bridge disabled. -/
def IsNotSupportedError (e : Err) : Prop :=
  e = Err.heightNotSupported ∨ e = Err.vmbridgeDisabled

/-- Boolean test returning true exactly when an Except value is an error. -/
def isErr {ε α : Type} : Except ε α → Bool
  | Except.error _ => true
  | Except.ok _ => false

/-- Modelled from the spec: tmtypes.HigherThanEarth (libs/tendermint/types) is
not under src/.  Spec §4.5: "Below it: every entry point short-circuits with a
'not supported at this height' error ... At or above it: fully active", and an
unset activation height (the sentinels of §3 and of module_adapter.go, where a
non-positive upgrade height means not configured) is never active.  So the
gate passes iff the activation height is positive and the current height is at
or above it. -/
def HigherThanEarth (earthHeight h : Int) : Bool :=
  decide (0 < earthHeight ∧ earthHeight ≤ h)

/-- Bytes of an EVM address (common.Address). -/
abbrev EthAddr := List Nat

/-- Bytes of a bech32 account address (sdk.AccAddress). -/
abbrev AccAddress := List Nat

/-- Wasm module parameters; only the bridge enable flag is relevant
(params.VmbridgeEnable at evm.go:38). -/
structure WasmParams where
  vmbridgeEnable : Bool
  deriving DecidableEq

/-- Collaborators of SendToWasmEventHandler.Handle (evm.go:31-56), over an
abstract keeper state σ: the wasm-keeper parameter read, the go-ethereum ABI
unpack of the log payload (none models a decode failure), and the keeper's
SendToWasm entry point as a state transformer. -/
structure HandleEnv (σ : Type) where
  getParams : σ → WasmParams
  unpack : List Nat → Option (String × String × Int)
  sendToWasm : σ → AccAddress → String → String → Int → σ × Except Err Unit

/-- Embedding of SendToWasmEventHandler.Handle (evm.go:31-56).  The height
gate and the enable-flag gate run first; a payload that fails to unpack is
logged and ignored (ok).  On success the decoded triple is passed to
SendToWasm with the caller derived from the emitting contract's bytes
(sdk.AccAddress(contract.Bytes()), here the identity on the byte list). -/
def Handle {σ : Type} (env : HandleEnv σ) (earthHeight height : Int)
    (contract : EthAddr) (data : List Nat) (s : σ) : σ × Except Err Unit :=
  if ! HigherThanEarth earthHeight height then
    (s, Except.error Err.heightNotSupported)
  else if ! (env.getParams s).vmbridgeEnable then
    (s, Except.error Err.vmbridgeDisabled)
  else
    match env.unpack data with
    | none => (s, Except.ok ())
    | some (wasmAddr, recipient, amount) =>
        env.sendToWasm s contract wasmAddr recipient amount

/-- Hexadecimal digit test used by the address well-formedness check. -/
def isHexDigitChar (c : Char) : Bool :=
  (decide ('0' ≤ c) && decide (c ≤ '9')) ||
  (decide ('a' ≤ c) && decide (c ≤ 'f')) ||
  (decide ('A' ≤ c) && decide (c ≤ 'F'))

/-- Modelled from the spec: sdk.IsETHAddress is not under src/.  Spec §4.3
requires both address strings to be "well-formed EVM addresses"; a well-formed
EVM address is the 0x tag followed by exactly 40 hexadecimal digits. -/
def IsETHAddress (s : String) : Bool :=
  match s.data with
  | '0' :: 'x' :: rest => rest.length == 40 && rest.all isHexDigitChar
  | _ => false

/-- Collaborators of Keeper.SendToEvm (evm.go:59-88), over an abstract state
σ: bech32 address parsing, the mint-payload encoder and output decoder
(x/vmbridge/types, not under src/), and CallEvm as a state transformer
returning the return bytes of the execution. -/
structure SendToEvmEnv (σ : Type) where
  accAddressFromBech32 : String → Except Err (List Nat)
  getMintERC20Input : String → List Nat → Int → Except Err (List Nat)
  callEvm : σ → List Nat → List Nat → σ × Except Err (List Nat)
  getMintERC20Output : List Nat → Except Err Bool

/-- Embedding of Keeper.SendToEvm (evm.go:59-88).  The middle component of
the result counts how many times the callEvm collaborator was invoked, so
that fail-fast behaviour is observable.  Both address strings are validated
before anything else; each later failure returns immediately. -/
def SendToEvm {σ : Type} (env : SendToEvmEnv σ) (caller contract recipient : String)
    (amount : Int) (s : σ) : σ × Nat × Except Err Bool :=
  if ! IsETHAddress recipient then
    (s, 0, Except.error Err.isNotETHAddr)
  else if ! IsETHAddress contract then
    (s, 0, Except.error Err.isNotETHAddr)
  else
    match env.accAddressFromBech32 contract with
    | Except.error e => (s, 0, Except.error e)
    | Except.ok contractAccAddr =>
      match env.accAddressFromBech32 recipient with
      | Except.error e => (s, 0, Except.error e)
      | Except.ok recipientAccAddr =>
        match env.getMintERC20Input caller recipientAccAddr amount with
        | Except.error e => (s, 0, Except.error e)
        | Except.ok input =>
          match env.callEvm s contractAccAddr input with
          | (s1, Except.error e) => (s1, 1, Except.error e)
          | (s1, Except.ok ret) => (s1, 1, env.getMintERC20Output ret)

/-- Modelled from the spec: erc20types.IbcEvmModuleETHAddr is not under src/;
spec §3 calls it the SystemAccount's "fixed reserved address". -/
def ibcEvmModuleETHAddr : List Nat := List.replicate 20 0

/-- Modelled from the spec: sdk.NewInfiniteGasMeter().Limit() is not under
src/; spec §4.4 step 4 recognises "no finite gas budget" by this sentinel
limit. -/
def infiniteGasMeterLimit : Nat := 0

/-- The system account: only its sequence number matters here (uint64 in the
source, represented as a Nat with explicit wrap at 2^64 where incremented). -/
structure Account where
  seq : Nat
  deriving DecidableEq

/-- Observable persistence effects of CallEvm, in order: the working-state
sub-commit that writes contract code (st.Csdb.Commit(false), evm.go:142) and
the persisting of the system account (k.accountKeeper.SetAccount,
evm.go:144). -/
inductive Effect where
  | commitCode
  | setAccount (seq : Nat)
  deriving DecidableEq

/-- State visible to CallEvm: the system account (none when it does not exist
yet) and the trace of persistence effects performed so far. -/
structure EvmState where
  acc : Option Account
  effects : List Effect
  deriving DecidableEq

/-- Sequence number CallEvm reads at the start: the stored account's
sequence, or 0 for the lazily created fresh account (evm.go:104-108). -/
def seqStart (s : EvmState) : Nat :=
  match s.acc with
  | some a => a.seq
  | none => 0

/-- Chain configuration; its contents are irrelevant to the embedded logic. -/
abbrev ChainConfig := Unit

/-- The evmtypes.StateTransition record built at evm.go:117-131, with the
fields the embedding tracks. -/
structure StateTransition where
  accountNonce : Nat
  price : Int
  gasLimit : Nat
  recipient : Option (List Nat)
  amount : Int
  payload : List Nat
  chainID : Nat
  txHash : List Nat
  sender : List Nat
  simulate : Bool

/-- Collaborators and ambient context of Keeper.CallEvm (evm.go:91-147):
the chain config lookup, the chain-ID parse of ctx.ChainID(), the transaction
hash, the ambient gas meter limit and the configured per-call maximum, the
checkTx flag, and the state-transition engine as an oracle from the built
StateTransition to either an error or the returned bytes. -/
structure CallEvmEnv where
  chainConfig : Option ChainConfig
  parseChainID : Except Err Nat
  txHash : List Nat
  gasMeterLimit : Nat
  maxGasLimitPerTx : Nat
  isCheckTx : Bool
  transitionDb : StateTransition → ChainConfig → Except Err (List Nat)

/-- The StateTransition record built at evm.go:117-131: nonce is the system
account's current sequence (the fresh account of the lazy initialization has
sequence 0, evm.go:104-108), the price is zero, the gas limit substitutes the
configured maximum when the ambient meter is unmetered (evm.go:112-115), and
the sender is the fixed system caller address. -/
def callEvmStateTransition (env : CallEvmEnv) (toAddr : Option (List Nat))
    (value : Int) (data : List Nat) (s : EvmState) (chainIDEpoch : Nat) :
    StateTransition :=
  { accountNonce := seqStart s, price := 0,
    gasLimit := if env.gasMeterLimit = infiniteGasMeterLimit then
        env.maxGasLimitPerTx
      else env.gasMeterLimit,
    recipient := toAddr, amount := value, payload := data,
    chainID := chainIDEpoch, txHash := env.txHash,
    sender := ibcEvmModuleETHAddr, simulate := env.isCheckTx }

/-- Embedding of Keeper.CallEvm (evm.go:91-147).  Failures of the chain-config
lookup, the chain-ID parse or the state transition return the error with the
state untouched.  On success the working state is committed (code written,
evm.go:142), the sequence advanced by 1 (uint64 wrap made explicit,
evm.go:143) and the account persisted (evm.go:144), in that order. -/
def CallEvm (env : CallEvmEnv) (toAddr : Option (List Nat)) (value : Int)
    (data : List Nat) (s : EvmState) : EvmState × Except Err (List Nat) :=
  match env.chainConfig with
  | none => (s, Except.error Err.chainConfigNotFound)
  | some config =>
    match env.parseChainID with
    | Except.error e => (s, Except.error e)
    | Except.ok chainIDEpoch =>
      let nonce := seqStart s
      match env.transitionDb
          (callEvmStateTransition env toAddr value data s chainIDEpoch) config with
      | Except.error e => (s, Except.error e)
      | Except.ok ret =>
        ({ acc := some { seq := (nonce + 1) % 2 ^ 64 },
           effects := (s.effects ++ [Effect.commitCode])
             ++ [Effect.setAccount ((nonce + 1) % 2 ^ 64)] },
         Except.ok ret)

/-- Store key name of the wasm module (types.ModuleName, the module whose
filters module_adapter.go installs). -/
def ModuleName : String := "wasm"

/-- A committed KV store as the filters see it: only the stamped upgrade
version is observable (s.SetUpgradeVersion at module_adapter.go:108). -/
structure CommitKVStore where
  upgradeVersion : Option Int
  deriving DecidableEq

/-- SetUpgradeVersion stamps the store's version marker with the height. -/
def SetUpgradeVersion (st : CommitKVStore) (h : Int) : CommitKVStore :=
  { st with upgradeVersion := some h }

/-- Embedding of defaultDenyFilter (module_adapter.go:97-99): exclude (true)
exactly the wasm module's store, at every height; the store is untouched. -/
def defaultDenyFilter (module : String) (_h : Int) (s : Option CommitKVStore) :
    Bool × Option CommitKVStore :=
  (decide (module = ModuleName), s)

/-- Embedding of defaultCommitFilter (module_adapter.go:101-118).  The store
argument is optional, reflecting the nil check at line 107; the result pairs
the filter decision (true = exclude the store from the commit) with the
possibly stamped store. -/
def defaultCommitFilter (earthHeight : Int) (module : String) (h : Int)
    (s : Option CommitKVStore) : Bool × Option CommitKVStore :=
  if module ≠ ModuleName then (false, s)
  else if h = earthHeight then
    (false, s.map (fun st => SetUpgradeVersion st h))
  else if HigherThanEarth earthHeight h then (false, s)
  else (true, s)

/-- Embedding of defaultPruneFilter (module_adapter.go:119-129). -/
def defaultPruneFilter (earthHeight : Int) (module : String) (h : Int)
    (s : Option CommitKVStore) : Bool × Option CommitKVStore :=
  if module ≠ ModuleName then (false, s)
  else if HigherThanEarth earthHeight h then (false, s)
  else (true, s)

/-- Embedding of defaultVersionFilter (module_adapter.go:130-138): the list of
(name, version) entries the returned enumerator reports to its callback.  A
negative height argument is the unset sentinel and yields no entries. -/
def defaultVersionFilter (earthHeight : Int) (h : Int) : List (String × Int) :=
  if h < 0 then [] else [(ModuleName, earthHeight)]

/-- Embedding of AppModule.CommitFilter (module_adapter.go:141-146), with the
module's upgrade height (UpgradeHeight() = GetEarthHeight()) as parameter. -/
def CommitFilter (upgradeHeight : Int) :
    String → Int → Option CommitKVStore → Bool × Option CommitKVStore :=
  if upgradeHeight = 0 then defaultDenyFilter
  else defaultCommitFilter upgradeHeight

/-- Embedding of AppModule.PruneFilter (module_adapter.go:148-153). -/
def PruneFilter (upgradeHeight : Int) :
    String → Int → Option CommitKVStore → Bool × Option CommitKVStore :=
  if upgradeHeight = 0 then defaultDenyFilter
  else defaultPruneFilter upgradeHeight

/-- ProposalStatus is a byte in the source (part_000:93). -/
abbrev ProposalStatus := Nat

/-- StatusNil (part_000:98). -/
def StatusNil : ProposalStatus := 0x00

/-- StatusDepositPeriod (part_000:99). -/
def StatusDepositPeriod : ProposalStatus := 0x01

/-- StatusVotingPeriod (part_000:100). -/
def StatusVotingPeriod : ProposalStatus := 0x02

/-- StatusPassed (part_000:101). -/
def StatusPassed : ProposalStatus := 0x03

/-- StatusRejected (part_000:102). -/
def StatusRejected : ProposalStatus := 0x04

/-- StatusFailed (part_000:103). -/
def StatusFailed : ProposalStatus := 0x05

/-- Embedding of ProposalStatusFromString (part_000:107-130): the Go pair of
returned status and error, the error as an optional message. -/
def ProposalStatusFromString (str : String) : ProposalStatus × Option String :=
  if str = "DepositPeriod" then (StatusDepositPeriod, none)
  else if str = "VotingPeriod" then (StatusVotingPeriod, none)
  else if str = "Passed" then (StatusPassed, none)
  else if str = "Rejected" then (StatusRejected, none)
  else if str = "Failed" then (StatusFailed, none)
  else if str = "" then (StatusNil, none)
  else (0xff, some (str ++ " is not a valid proposal status"))

/-- Embedding of ProposalStatus.String (part_000:179-199); the Go doc comment
at part_000:106 calls the conversion ProposalStatusToString. -/
def ProposalStatusToString (status : ProposalStatus) : String :=
  if status = StatusDepositPeriod then "DepositPeriod"
  else if status = StatusVotingPeriod then "VotingPeriod"
  else if status = StatusPassed then "Passed"
  else if status = StatusRejected then "Rejected"
  else if status = StatusFailed then "Failed"
  else ""

/-- Embedding of ValidProposalStatus (part_000:134-143). -/
def ValidProposalStatus (status : ProposalStatus) : Bool :=
  decide (status = StatusDepositPeriod) || decide (status = StatusVotingPeriod) ||
  decide (status = StatusPassed) || decide (status = StatusRejected) ||
  decide (status = StatusFailed)

/-- Concrete Handle collaborators for closed theorems: bridge enabled,
payload [1] decodes to the triple with amount 500, SendToWasm succeeds. -/
def handleDemoEnv : HandleEnv Unit where
  getParams := fun _ => { vmbridgeEnable := true }
  unpack := fun data =>
    if data = [1] then some ("wasmaddr1", "recipient1", 500) else none
  sendToWasm := fun s _ _ _ _ => (s, Except.ok ())

/-- Concrete Handle collaborators with the bridge enable flag unset. -/
def handleDisabledEnv : HandleEnv Unit :=
  { handleDemoEnv with getParams := fun _ => { vmbridgeEnable := false } }

/-- Claim C1: at a block height equal to the (positive) activation height,
with the bridge enabled and a well-formed SendToWasm log decoding to
(wasmAddr, recipient, 500), Handle invokes SendToWasm on exactly that decoded
triple, and returns success whenever SendToWasm does. -/
theorem handle_at_activation_invokes_sendToWasm {σ : Type} (env : HandleEnv σ)
    (H : Int) (s : σ) (contract : EthAddr) (data : List Nat)
    (wasmAddr recipient : String) (hH : 0 < H)
    (hEnable : (env.getParams s).vmbridgeEnable = true)
    (hUnpack : env.unpack data = some (wasmAddr, recipient, 500)) :
    Handle env H H contract data s
      = env.sendToWasm s contract wasmAddr recipient 500 ∧
    ((env.sendToWasm s contract wasmAddr recipient 500).2 = Except.ok () →
      (Handle env H H contract data s).2 = Except.ok ()) := by
  have hGate : HigherThanEarth H H = true := by
    simp only [HigherThanEarth, decide_eq_true_eq]
    omega
  have h1 : Handle env H H contract data s
      = env.sendToWasm s contract wasmAddr recipient 500 := by
    simp [Handle, hGate, hEnable, hUnpack]
  exact ⟨h1, fun hOk => by rw [h1, hOk]⟩

/-- Claim C1 witness: the spec scenario height = ActivationHeight = 100,
bridge enabled, log decoding to amount 500, evaluated concretely. -/
theorem handle_at_activation_invokes_sendToWasm_witness :
    Handle handleDemoEnv 100 100 [7] [1] () = ((), Except.ok ()) := by
  have h := handle_at_activation_invokes_sendToWasm handleDemoEnv 100 () [7] [1]
    "wasmaddr1" "recipient1" (by norm_num) rfl rfl
  exact h.1.trans rfl

/-- Claim C2 counterexample: height 100 with ActivationHeight 100 is not
strictly greater than the activation height, yet the enabled handler does not
return a NotSupportedError — it runs the bridge call and succeeds. -/
theorem handle_gate_not_strict_counterexample :
    ¬ ((100 : Int) > 100) ∧
    Handle handleDemoEnv 100 100 [7] [1] () = ((), Except.ok ()) :=
  ⟨by norm_num, rfl⟩

/-- Claim C2 (amended): for every height strictly below the activation height
the handler returns the height NotSupportedError and leaves the state
unchanged, and at a gate-passing height with the enable flag unset it returns
the bridge-disabled NotSupportedError and leaves the state unchanged; both
errors are NotSupportedErrors, so bridge calls proceed only when the height
is at or above a configured activation height and the flag is set. -/
theorem handle_gate_blocks {σ : Type} (env : HandleEnv σ) (H height : Int)
    (contract : EthAddr) (data : List Nat) (s : σ) :
    (height < H → Handle env H height contract data s
        = (s, Except.error Err.heightNotSupported)) ∧
    ((env.getParams s).vmbridgeEnable = false → HigherThanEarth H height = true →
      Handle env H height contract data s
        = (s, Except.error Err.vmbridgeDisabled)) ∧
    IsNotSupportedError Err.heightNotSupported ∧
    IsNotSupportedError Err.vmbridgeDisabled := by
  refine ⟨?_, ?_, Or.inl rfl, Or.inr rfl⟩
  · intro hlt
    have hGate : HigherThanEarth H height = false := by
      simp only [HigherThanEarth, decide_eq_false_iff_not]
      omega
    simp [Handle, hGate]
  · intro hflag hGate
    simp [Handle, hGate, hflag]

/-- Claim C2 witness: concrete evaluations of the amended claim at height 99
(below activation 100) and at height 150 with the flag unset. -/
theorem handle_gate_blocks_witness :
    Handle handleDemoEnv 100 99 [7] [1] ()
      = ((), Except.error Err.heightNotSupported) ∧
    Handle handleDisabledEnv 100 150 [7] [1] ()
      = ((), Except.error Err.vmbridgeDisabled) :=
  ⟨(handle_gate_blocks handleDemoEnv 100 99 [7] [1] ()).1 (by norm_num),
   (handle_gate_blocks handleDisabledEnv 100 150 [7] [1] ()).2.1 rfl (by decide)⟩

/-- Claim C3: when the gate passes and the bridge is enabled but the log
payload fails to decode, Handle swallows the failure: it returns success (nil
error) and the state is untouched. -/
theorem handle_decode_failure_swallowed {σ : Type} (env : HandleEnv σ)
    (H height : Int) (contract : EthAddr) (data : List Nat) (s : σ)
    (hGate : HigherThanEarth H height = true)
    (hEnable : (env.getParams s).vmbridgeEnable = true)
    (hUnpack : env.unpack data = none) :
    Handle env H height contract data s = (s, Except.ok ()) := by
  simp [Handle, hGate, hEnable, hUnpack]

/-- Claim C3 witness: payload [2] does not decode under handleDemoEnv, and
Handle at an active height returns success with the state unchanged. -/
theorem handle_decode_failure_swallowed_witness :
    Handle handleDemoEnv 100 150 [7] [2] () = ((), Except.ok ()) :=
  handle_decode_failure_swallowed handleDemoEnv 100 150 [7] [2] ()
    (by decide) rfl rfl

/-- Concrete SendToEvm collaborators for closed theorems: every collaborator
succeeds, so only the embedded validation can fail. -/
def sendToEvmDemoEnv : SendToEvmEnv Unit where
  accAddressFromBech32 := fun _ => Except.ok (List.replicate 20 0)
  getMintERC20Input := fun _ _ _ => Except.ok [0]
  callEvm := fun s _ _ => (s, Except.ok [1])
  getMintERC20Output := fun _ => Except.ok true

/-- Claim C4: when the recipient or the contract string is not a well-formed
EVM address, SendToEvm returns the validation error immediately: the state is
untouched and the callEvm collaborator is invoked zero times. -/
theorem sendToEvm_validation_failfast {σ : Type} (env : SendToEvmEnv σ)
    (caller contract recipient : String) (amount : Int) (s : σ)
    (hBad : IsETHAddress recipient = false ∨ IsETHAddress contract = false) :
    SendToEvm env caller contract recipient amount s
      = (s, 0, Except.error Err.isNotETHAddr) := by
  rcases hBad with h | h
  · simp [SendToEvm, h]
  · cases hr : IsETHAddress recipient <;> simp [SendToEvm, hr, h]

/-- Claim C4 witness: the spec scenario recipient "not-an-eth-address" with a
well-formed contract address; the EvmCallExecutor is never invoked. -/
theorem sendToEvm_validation_failfast_witness :
    SendToEvm sendToEvmDemoEnv "caller1"
      "0x00112233445566778899aabbccddeeff00112233" "not-an-eth-address" 5 ()
      = ((), 0, Except.error Err.isNotETHAddr) :=
  sendToEvm_validation_failfast sendToEvmDemoEnv "caller1"
    "0x00112233445566778899aabbccddeeff00112233" "not-an-eth-address" 5 ()
    (Or.inl (by decide))

/-- Concrete CallEvm context whose chain-config lookup fails. -/
def callEvmFailEnv : CallEvmEnv :=
  { chainConfig := none, parseChainID := Except.ok 1, txHash := [],
    gasMeterLimit := 10, maxGasLimitPerTx := 100, isCheckTx := false,
    transitionDb := fun _ _ => Except.ok [] }

/-- Concrete CallEvm context in which every step succeeds. -/
def callEvmOkEnv : CallEvmEnv :=
  { chainConfig := some (), parseChainID := Except.ok 1, txHash := [9],
    gasMeterLimit := 10, maxGasLimitPerTx := 100, isCheckTx := false,
    transitionDb := fun _ _ => Except.ok [2] }

/-- Claim C5: when the chain config is missing, the chain-ID parse fails, or
the state transition fails, CallEvm returns a non-nil error and the state is
exactly the input state: the system account's sequence is unchanged and no
contract code is persisted (no commit effect is recorded). -/
theorem callEvm_failure_no_mutation (env : CallEvmEnv) (toAddr : Option (List Nat))
    (value : Int) (data : List Nat) (s : EvmState)
    (hFail : env.chainConfig = none ∨ (∃ e, env.parseChainID = Except.error e) ∨
      (∀ st config, isErr (env.transitionDb st config) = true)) :
    isErr (CallEvm env toAddr value data s).2 = true ∧
    (CallEvm env toAddr value data s).1 = s := by
  rcases hFail with h | ⟨e, h⟩ | h
  · simp [CallEvm, h, isErr]
  · cases hc : env.chainConfig with
    | none => simp [CallEvm, hc, isErr]
    | some config => simp [CallEvm, hc, h, isErr]
  · cases hc : env.chainConfig with
    | none => simp [CallEvm, hc, isErr]
    | some config =>
      cases hp : env.parseChainID with
      | error e => simp [CallEvm, hc, hp, isErr]
      | ok cid =>
        have ht := h (callEvmStateTransition env toAddr value data s cid) config
        cases hres : env.transitionDb
            (callEvmStateTransition env toAddr value data s cid) config with
        | error e => simp [CallEvm, hc, hp, hres, isErr]
        | ok ret => rw [hres] at ht; simp [isErr] at ht

/-- Claim C5 witness: a failing CallEvm (missing chain config) returns an
error and leaves the state — account sequence 3, empty effect trace —
untouched. -/
theorem callEvm_failure_no_mutation_witness :
    isErr (CallEvm callEvmFailEnv none 0 []
      { acc := some { seq := 3 }, effects := [] }).2 = true ∧
    (CallEvm callEvmFailEnv none 0 []
      { acc := some { seq := 3 }, effects := [] }).1
      = { acc := some { seq := 3 }, effects := [] } :=
  callEvm_failure_no_mutation callEvmFailEnv none 0 []
    { acc := some { seq := 3 }, effects := [] } (Or.inl rfl)

/-- Claim C6: a successful CallEvm leaves the system account's sequence at
exactly the sequence read at the start plus 1 (no uint64 wrap at reachable
sequences), and the account persist effect is recorded after the
contract-code sub-commit effect. -/
theorem callEvm_success_seq_increment (env : CallEvmEnv)
    (toAddr : Option (List Nat)) (value : Int) (data : List Nat)
    (s : EvmState) (ret : List Nat)
    (hOk : (CallEvm env toAddr value data s).2 = Except.ok ret)
    (hNoWrap : seqStart s + 1 < 2 ^ 64) :
    (CallEvm env toAddr value data s).1.acc = some { seq := seqStart s + 1 } ∧
    (CallEvm env toAddr value data s).1.effects
      = s.effects ++ [Effect.commitCode, Effect.setAccount (seqStart s + 1)] := by
  have hmod : (seqStart s + 1) % 2 ^ 64 = seqStart s + 1 :=
    Nat.mod_eq_of_lt hNoWrap
  cases hc : env.chainConfig with
  | none => rw [CallEvm, hc] at hOk; simp at hOk
  | some config =>
    cases hp : env.parseChainID with
    | error e => rw [CallEvm, hc, hp] at hOk; simp at hOk
    | ok cid =>
      cases hres : env.transitionDb
          (callEvmStateTransition env toAddr value data s cid) config with
      | error e => rw [CallEvm, hc, hp] at hOk; simp [hres] at hOk
      | ok r2 =>
        simp [CallEvm, hc, hp, hres, hmod]
        omega

/-- Claim C6 witness: a successful concrete CallEvm starting at sequence 3
ends at sequence 4, with the commit effect preceding the persist effect. -/
theorem callEvm_success_seq_increment_witness :
    (CallEvm callEvmOkEnv none 0 []
      { acc := some { seq := 3 }, effects := [] }).1.acc = some { seq := 4 } ∧
    (CallEvm callEvmOkEnv none 0 []
      { acc := some { seq := 3 }, effects := [] }).1.effects
      = [Effect.commitCode, Effect.setAccount 4] := by
  have h := callEvm_success_seq_increment callEvmOkEnv none 0 []
    { acc := some { seq := 3 }, effects := [] } [2] rfl (by norm_num [seqStart])
  simpa using h

/-- Claim C7: for a configured (positive) activation height H, the commit
filter excludes the wasm module's writes below H; at H it includes them and
stamps the version marker, idempotently under a second evaluation at H; and
above H it includes them without stamping. -/
theorem commitFilter_three_state (H h : Int) (st : CommitKVStore) (hH : 0 < H) :
    (h < H → defaultCommitFilter H ModuleName h (some st) = (true, some st)) ∧
    (h = H →
      defaultCommitFilter H ModuleName h (some st)
        = (false, some (SetUpgradeVersion st h)) ∧
      defaultCommitFilter H ModuleName h
          ((defaultCommitFilter H ModuleName h (some st)).2)
        = (false, some (SetUpgradeVersion st h))) ∧
    (H < h → defaultCommitFilter H ModuleName h (some st) = (false, some st)) := by
  refine ⟨?_, ?_, ?_⟩
  · intro hlt
    have h1 : ¬ h = H := by omega
    have h2 : HigherThanEarth H h = false := by
      simp only [HigherThanEarth, decide_eq_false_iff_not]
      omega
    simp [defaultCommitFilter, h1, h2]
  · intro heq
    subst heq
    constructor
    · simp [defaultCommitFilter]
    · simp [defaultCommitFilter, SetUpgradeVersion]
  · intro hgt
    have h1 : ¬ h = H := by omega
    have h2 : HigherThanEarth H h = true := by
      simp only [HigherThanEarth, decide_eq_true_eq]
      omega
    simp [defaultCommitFilter, h1, h2]

/-- Claim C7 witness: the three cases of the commit filter evaluated at
activation height 100 and heights 99, 100 and 101. -/
theorem commitFilter_three_state_witness :
    defaultCommitFilter 100 ModuleName 99 (some { upgradeVersion := none })
      = (true, some { upgradeVersion := none }) ∧
    defaultCommitFilter 100 ModuleName 100 (some { upgradeVersion := none })
      = (false, some { upgradeVersion := some 100 }) ∧
    defaultCommitFilter 100 ModuleName 101 (some { upgradeVersion := none })
      = (false, some { upgradeVersion := none }) :=
  ⟨(commitFilter_three_state 100 99 { upgradeVersion := none }
      (by norm_num)).1 (by norm_num),
   ((commitFilter_three_state 100 100 { upgradeVersion := none }
      (by norm_num)).2.1 rfl).1,
   (commitFilter_three_state 100 101 { upgradeVersion := none }
      (by norm_num)).2.2 (by norm_num)⟩

/-- Claim C8: with the activation height unset (negative sentinel argument),
the version-enumeration filter reports zero entries, fabricating no floor
version for any module. -/
theorem versionFilter_unset_empty (H h : Int) (hUnset : h < 0) :
    defaultVersionFilter H h = [] := by
  simp [defaultVersionFilter, hUnset]

/-- Claim C8 witness: the enumerator at sentinel height -1 reports nothing. -/
theorem versionFilter_unset_empty_witness :
    defaultVersionFilter 100 (-1) = [] :=
  versionFilter_unset_empty 100 (-1) (by norm_num)

/-- Claim C9: with upgrade height 0 both CommitFilter and PruneFilter are the
deny filter; the deny filter excludes the wasm module's store at every
height; and for every other module name the deny, commit and prune filters
all answer include (false) at every height, leaving the store untouched. -/
theorem filters_deny_and_other_modules :
    CommitFilter 0 = defaultDenyFilter ∧
    PruneFilter 0 = defaultDenyFilter ∧
    (∀ h s, defaultDenyFilter ModuleName h s = (true, s)) ∧
    (∀ H module h s, module ≠ ModuleName →
      defaultDenyFilter module h s = (false, s) ∧
      defaultCommitFilter H module h s = (false, s) ∧
      defaultPruneFilter H module h s = (false, s)) := by
  refine ⟨rfl, rfl, ?_, ?_⟩
  · intro h s
    simp [defaultDenyFilter]
  · intro H module h s hmod
    exact ⟨by simp [defaultDenyFilter, hmod],
      by simp [defaultCommitFilter, hmod],
      by simp [defaultPruneFilter, hmod]⟩

/-- Claim C9 witness: the filters evaluated for the module name "evm" at
upgrade height 100 and block height 5. -/
theorem filters_deny_and_other_modules_witness :
    defaultDenyFilter "evm" 5 none = (false, none) ∧
    defaultCommitFilter 100 "evm" 5 none = (false, none) ∧
    defaultPruneFilter 100 "evm" 5 none = (false, none) :=
  filters_deny_and_other_modules.2.2.2 100 "evm" 5 none (by decide)

/-- Claim C10: converting any valid proposal status to its string and back
returns the same status with no error; any non-empty string other than the
five status names yields an error; and the empty string maps to StatusNil. -/
theorem proposalStatus_string_roundtrip :
    (∀ status : ProposalStatus, ValidProposalStatus status = true →
      ProposalStatusFromString (ProposalStatusToString status) = (status, none)) ∧
    (∀ str : String, str ≠ "" → str ≠ "DepositPeriod" → str ≠ "VotingPeriod" →
      str ≠ "Passed" → str ≠ "Rejected" → str ≠ "Failed" →
      (ProposalStatusFromString str).2.isSome = true) ∧
    ProposalStatusFromString "" = (StatusNil, none) := by
  refine ⟨?_, ?_, rfl⟩
  · intro status hv
    simp only [ValidProposalStatus, StatusDepositPeriod, StatusVotingPeriod,
      StatusPassed, StatusRejected, StatusFailed, Bool.or_eq_true,
      decide_eq_true_eq] at hv
    rcases hv with ((((h | h) | h) | h) | h) <;> subst h <;> rfl
  · intro str h0 h1 h2 h3 h4 h5
    simp [ProposalStatusFromString, h0, h1, h2, h3, h4, h5]

/-- Claim C10 witness: the round trip at StatusPassed and the rejection of
the string "Bogus". -/
theorem proposalStatus_string_roundtrip_witness :
    ProposalStatusFromString (ProposalStatusToString StatusPassed)
      = (StatusPassed, none) ∧
    (ProposalStatusFromString "Bogus").2.isSome = true :=
  ⟨proposalStatus_string_roundtrip.1 StatusPassed (by decide),
   proposalStatus_string_roundtrip.2.1 "Bogus" (by decide) (by decide)
     (by decide) (by decide) (by decide) (by decide)⟩

end Exchain
